import Mathlib

/-!
Verification of the AQI-Analysis pipeline
(`ai_aqi_analysis_agent_gradio.py`).

The Python source is shallowly embedded:

* Python numbers are `PyNum` (an `int` or a `float`); since the program
  performs no arithmetic, `float` values are carried as the exact rationals
  they denote, and `pyStr` models the runtime's `str()` rendering on the
  decimally-representable values the program manipulates.
* Python dictionaries with string keys are association lists
  (`List (String × _)`); a JSON `null` inside the raw extraction payload is
  `Option.none`.
* Exceptions are modelled with `Except String`, carrying `str(e)`.
* The two outbound network calls (`firecrawl.extract` and the Groq chat
  completion) are oracle parameters: a function from the request's
  distinguishing argument to `Except String _`, an `Except.error` modelling
  the call raising.
-/

/-- A Python number: either an `int` or a `float`.  The program performs no
arithmetic on metric values, so a float is carried as the rational it
denotes. -/
inductive PyNum where
  | int (n : Int)
  | float (q : Rat)
deriving DecidableEq, Repr

/-- Fractional decimal digits of `r / d` (with `r < d`), fuel-bounded.
Supports `pyFloatStr` below. -/
def fracDigits : Nat → Nat → Nat → String
  | 0, _, _ => ""
  | fuel + 1, r, d =>
    if r = 0 then ""
    else
      String.singleton (Char.ofNat (48 + r * 10 / d)) ++ fracDigits fuel (r * 10 % d) d

/-- Modelled from the Python runtime: `str()` on a float whose value has a
finite decimal expansion prints the shortest decimal form, with at least one
fractional digit (`str(42.0) == "42.0"`). -/
def pyFloatStr (q : Rat) : String :=
  let sign := if q.num < 0 then "-" else ""
  let na := q.num.natAbs
  let frac := if na % q.den = 0 then "0" else fracDigits 17 (na % q.den) q.den
  sign ++ toString (na / q.den) ++ "." ++ frac

/-- Modelled from the Python runtime: `str()` on a number. -/
def pyStr : PyNum → String
  | .int n => toString n
  | .float q => pyFloatStr q

/-- Modelled from the Python runtime: pydantic's coercion of a number to the
declared `float` type (`Dict[str, float]`). -/
def numToFloat : PyNum → PyNum
  | .int n => .float n
  | .float q => .float q

/-- Modelled from the Python runtime: `str.lower()` (ASCII letters; the
program's inputs are location names). -/
def pyLower (s : String) : String :=
  ⟨s.data.map Char.toLower⟩

/-- Modelled from the Python runtime: `str.replace(' ', '-')` — the pattern
is a single character, so it is a character-wise map. -/
def replaceSpaceWithHyphen (s : String) : String :=
  ⟨s.data.map (fun c => if c = ' ' then '-' else c)⟩

/-- The normalization `_format_url` applies to each location segment:
`x.lower().replace(' ', '-')`. -/
def slugSegment (s : String) : String :=
  replaceSpaceWithHyphen (pyLower s)

/-- `AQIAnalyzer._format_url` (source lines 42–51). -/
def format_url (country state city : String) : String :=
  let country_clean := slugSegment country
  let city_clean := slugSegment city
  if state = "" ∨ pyLower state = "none" then
    "https://www.aqi.in/dashboard/" ++ country_clean ++ "/" ++ city_clean
  else
    let state_clean := slugSegment state
    "https://www.aqi.in/dashboard/" ++ country_clean ++ "/" ++ state_clean ++ "/" ++ city_clean

/-- The single wildcard URL `fetch_aqi_data` passes to `firecrawl.extract`
(`urls=[f"{url}/*"]`, source line 60). -/
def lookup_url (country state city : String) : String :=
  format_url country state city ++ "/*"

/-- Python `dict[k]` lookup on an association list (`some` = key present). -/
def dictGet {α : Type} : List (String × α) → String → Option α
  | [], _ => none
  | (k, v) :: rest, key => if k = key then some v else dictGet rest key

/-- Python `dict[k]` lookup that raises `KeyError` (whose `str()` is the
quoted key) when the key is absent. -/
def dictGetE {α : Type} (d : List (String × α)) (k : String) : Except String α :=
  match dictGet d k with
  | some v => .ok v
  | none => .error ("'" ++ k ++ "'")

/-- Python `dict[k] = v` on an association list (keys of a Python dict are
unique, so replacing every matching entry is the same as replacing the one). -/
def setItem {α : Type} : List (String × α) → String → α → List (String × α)
  | [], _, _ => []
  | (k, v) :: rest, key, nv =>
    if k = key then (k, nv) :: setItem rest key nv else (k, v) :: setItem rest key nv

/-- The raw payload returned by `firecrawl.extract`: the `data` dictionary may
hold arbitrary keys and `null` (`Option.none`) values; `success`, `status` and
`expiresAt` are carried already shaped. -/
structure RawResponse where
  success : Bool
  data : List (String × Option PyNum)
  status : String
  expiresAt : String
deriving DecidableEq, Repr

/-- The pydantic model `AQIResponse` (source lines 14–18): `data` is declared
`Dict[str, float]` — any key set, every value coerced to `float`. -/
structure AQIResponse where
  success : Bool
  data : List (String × PyNum)
  status : String
  expiresAt : String
deriving DecidableEq, Repr

/-- Modelled from the Python runtime: the message of the pydantic
`ValidationError` raised when a `Dict[str, float]` value is `null`. -/
def validationErrorMsg : String :=
  "1 validation error for AQIResponse"

/-- pydantic validation of the `data` field against `Dict[str, float]`: a
`null` value raises a `ValidationError`; every number is coerced to `float`.
Keys are not constrained. -/
def validateData : List (String × Option PyNum) → Except String (List (String × PyNum))
  | [] => .ok []
  | (_, none) :: _ => .error validationErrorMsg
  | (k, some v) :: rest =>
    match validateData rest with
    | .ok r => .ok ((k, numToFloat v) :: r)
    | .error e => .error e

/-- The value-level effect of a successful `validateData` run: coercion of a
non-`null` value to `float` (`Option.getD` never sees its default on the
success path). -/
def coerceVal (o : Option PyNum) : PyNum := numToFloat (o.getD (.int 0))

/-- The data dictionary produced by a successful `validateData` run: same
keys, every value coerced to `float`. -/
def coerceData (d : List (String × Option PyNum)) : List (String × PyNum) :=
  d.map (fun p => (p.1, coerceVal p.2))

/-- The zero-filled fallback dictionary of `fetch_aqi_data` (source lines
82–90); its values are Python `int` literals `0`. -/
def zeroMetrics : List (String × PyNum) :=
  [("aqi", .int 0), ("temperature", .int 0), ("humidity", .int 0),
   ("wind_speed", .int 0), ("pm25", .int 0), ("pm10", .int 0), ("co", .int 0)]

/-- A `MetricsData` mapping: a dictionary holding exactly the seven metric
keys, in the `ExtractSchema` field order (source lines 20–27). -/
def mkMetricsDict (aqi temperature humidity wind_speed pm25 pm10 co : PyNum) :
    List (String × PyNum) :=
  [("aqi", aqi), ("temperature", temperature), ("humidity", humidity),
   ("wind_speed", wind_speed), ("pm25", pm25), ("pm10", pm10), ("co", co)]

/-- `AQIAnalyzer.fetch_aqi_data` (source lines 53–90).  `extract` is the
`firecrawl.extract` oracle, applied to the `urls` list the source builds;
`Except.error e` models the call raising an exception with message `e`. -/
def fetch_aqi_data (extract : List String → Except String RawResponse)
    (city state country : String) : List (String × PyNum) × String :=
  let url := format_url country state city
  let info_msg := "Accessing URL: " ++ url
  let attempt : Except String (List (String × PyNum) × String) := do
    let response ← extract [url ++ "/*"]
    let data ←
      match dictGet response.data "wind_speed" with
      | none => Except.error "'wind_speed'"
      | some none => Except.ok (setItem response.data "wind_speed" (some (.float 0)))
      | some (some _) => Except.ok response.data
    let vdata ← validateData data
    let aqi_response : AQIResponse :=
      ⟨response.success, vdata, response.status, response.expiresAt⟩
    if !aqi_response.success then
      throw ("Failed to fetch AQI data: " ++ aqi_response.status)
    pure (aqi_response.data, info_msg)
  match attempt with
  | .ok r => r
  | .error e => (zeroMetrics, "Error fetching AQI data: " ++ e)

/-- The `UserInput` dataclass (source lines 29–35). -/
structure UserInput where
  city : String
  state : String
  country : String
  medical_conditions : Option String
  planned_activity : String
deriving DecidableEq, Repr

/-- Python `x or 'None'` on an `Optional[str]`: `None` and the empty string
are falsy. -/
def pyOrNone : Option String → String
  | none => "None"
  | some s => if s = "" then "None" else s

/-- `HealthRecommendationAgent._create_prompt` (source lines 116–137): the
f-string is reproduced byte for byte; the seven `aqi_data[...]` subscripts
evaluate in textual order and may raise `KeyError`. -/
def create_prompt (aqi_data : List (String × PyNum)) (user_input : UserInput) :
    Except String String := do
  let aqi ← dictGetE aqi_data "aqi"
  let pm25 ← dictGetE aqi_data "pm25"
  let pm10 ← dictGetE aqi_data "pm10"
  let co ← dictGetE aqi_data "co"
  let temperature ← dictGetE aqi_data "temperature"
  let humidity ← dictGetE aqi_data "humidity"
  let wind_speed ← dictGetE aqi_data "wind_speed"
  pure ("\n        Based on the following air quality conditions in " ++ user_input.city
    ++ ", " ++ user_input.state ++ ", " ++ user_input.country
    ++ ":\n        - Overall AQI: " ++ pyStr aqi
    ++ "\n        - PM2.5 Level: " ++ pyStr pm25
    ++ " µg/m³\n        - PM10 Level: " ++ pyStr pm10
    ++ " µg/m³\n        - CO Level: " ++ pyStr co
    ++ " ppb\n        \n        Weather conditions:\n        - Temperature: " ++ pyStr temperature
    ++ "°C\n        - Humidity: " ++ pyStr humidity
    ++ "%\n        - Wind Speed: " ++ pyStr wind_speed
    ++ " km/h\n        \n        User's Context:\n        - Medical Conditions: "
    ++ pyOrNone user_input.medical_conditions
    ++ "\n        - Planned Activity: " ++ user_input.planned_activity
    ++ "\n        **Comprehensive Health Recommendations:**\n        1. **Impact of Current Air Quality on Health:**\n        2. **Necessary Safety Precautions for Planned Activity:**\n        3. **Advisability of Planned Activity:**\n        4. **Best Time to Conduct the Activity:**\n        ")

/-- `HealthRecommendationAgent.get_recommendations` (source lines 97–114).
`groq` is the chat-completion oracle, applied to the prompt content; its
`Except.error` models the client call (or the `choices[0]` access) raising. -/
def get_recommendations (groq : String → Except String String)
    (aqi_data : List (String × PyNum)) (user_input : UserInput) : Except String String := do
  let prompt ← create_prompt aqi_data user_input
  groq prompt

/-- A value of the display dictionary built by `analyze_conditions`: the AQI
entry is a bare number, the six others are unit-suffixed strings. -/
inductive DispVal where
  | num (n : PyNum)
  | str (s : String)
deriving DecidableEq, Repr

/-- The display dictionary of `analyze_conditions` (source lines 169–177),
before `json.dumps`: the seven `aqi_data[...]` subscripts evaluate in the
dict literal's textual order and may raise `KeyError`. -/
def format_aqi_entries (aqi_data : List (String × PyNum)) :
    Except String (List (String × DispVal)) := do
  let aqi ← dictGetE aqi_data "aqi"
  let pm25 ← dictGetE aqi_data "pm25"
  let pm10 ← dictGetE aqi_data "pm10"
  let co ← dictGetE aqi_data "co"
  let temperature ← dictGetE aqi_data "temperature"
  let humidity ← dictGetE aqi_data "humidity"
  let wind_speed ← dictGetE aqi_data "wind_speed"
  pure [("Air Quality Index (AQI)", .num aqi),
    ("PM2.5", .str (pyStr pm25 ++ " µg/m³")),
    ("PM10", .str (pyStr pm10 ++ " µg/m³")),
    ("Carbon Monoxide (CO)", .str (pyStr co ++ " ppb")),
    ("Temperature", .str (pyStr temperature ++ "°C")),
    ("Humidity", .str (pyStr humidity ++ "%")),
    ("Wind Speed", .str (pyStr wind_speed ++ " km/h"))]

/-- Modelled from the Python runtime: a lowercase hexadecimal digit, as used
by `json.dumps` in `\uXXXX` escapes. -/
def hexDigit (n : Nat) : Char :=
  if n < 10 then Char.ofNat (48 + n) else Char.ofNat (87 + n)

/-- Modelled from the Python runtime: `json.dumps` escaping of one character
(default `ensure_ascii=True`; every character in this program's output is
below U+10000, so no surrogate pairs arise). -/
def jsonEscapeChar (c : Char) : String :=
  if c = '"' then "\\\""
  else if c = '\\' then "\\\\"
  else if c = '\n' then "\\n"
  else if c = '\t' then "\\t"
  else if c = '\r' then "\\r"
  else if c.toNat < 32 ∨ 127 ≤ c.toNat then
    "\\u" ++ String.mk [hexDigit (c.toNat / 4096 % 16), hexDigit (c.toNat / 256 % 16),
      hexDigit (c.toNat / 16 % 16), hexDigit (c.toNat % 16)]
  else String.singleton c

/-- Modelled from the Python runtime: `json.dumps` escaping of a string. -/
def jsonEscape (s : String) : String :=
  String.join (s.data.map jsonEscapeChar)

/-- Rendering of one display value inside the dumped JSON. -/
def renderDispVal : DispVal → String
  | .num n => pyStr n
  | .str s => "\"" ++ jsonEscape s ++ "\""

/-- Modelled from the Python runtime: `json.dumps(d, indent=2)` on a
non-empty single-level string-keyed dictionary. -/
def py_json_dumps (entries : List (String × DispVal)) : String :=
  "\x7b\n"
    ++ String.intercalate ",\n"
      (entries.map (fun p => "  \"" ++ jsonEscape p.1 ++ "\": " ++ renderDispVal p.2))
    ++ "\n\x7d"

/-- The static staleness note of `analyze_conditions` (source lines 182–190),
byte for byte. -/
def warning_msg : String :=
  "\n        ⚠️ Note: The data shown may not match real-time values on the website. \n        This could be due to:\n        - Cached data in Firecrawl\n        - Rate limiting\n        - Website updates not being captured\n        \n        Consider refreshing or checking the website directly for real-time values.\n        "

/-- The body of the `try` block of `analyze_conditions` (source lines
147–192): any `Except.error` is an exception reaching the outer handler. -/
def analyze_inner (extract : List String → Except String RawResponse)
    (groq : String → Except String String)
    (city state country medical_conditions planned_activity : String) :
    Except String (String × String × String × String) := do
  let user_input : UserInput :=
    ⟨city, state, country, some medical_conditions, planned_activity⟩
  let (aqi_data, info_msg) :=
    fetch_aqi_data extract user_input.city user_input.state user_input.country
  let entries ← format_aqi_entries aqi_data
  let aqi_json := py_json_dumps entries
  let recommendations ← get_recommendations groq aqi_data user_input
  pure (aqi_json, recommendations, info_msg, warning_msg)

/-- `analyze_conditions` (source lines 139–196). -/
def analyze_conditions (extract : List String → Except String RawResponse)
    (groq : String → Except String String)
    (city state country medical_conditions planned_activity : String) :
    String × String × String × String :=
  match analyze_inner extract groq city state country medical_conditions planned_activity with
  | .ok r => r
  | .error e => ("", "Analysis failed", "Error occurred: " ++ e, "")

/-! ## Helper lemmas -/

theorem char_toNat_ofNat (m : Nat) (h : m < 55296) : (Char.ofNat m).toNat = m := by
  have hv : m.isValidChar := Or.inl h
  simp [Char.ofNat, hv, Char.ofNatAux, Char.toNat, UInt32.toNat]

theorem toLower_def (c : Char) :
    c.toLower = if 65 ≤ c.toNat ∧ c.toNat ≤ 90 then Char.ofNat (c.toNat + 32) else c := rfl

theorem toLower_idem (c : Char) : c.toLower.toLower = c.toLower := by
  by_cases h : 65 ≤ c.toNat ∧ c.toNat ≤ 90
  · have h2 : (Char.ofNat (c.toNat + 32)).toNat = c.toNat + 32 :=
      char_toNat_ofNat _ (by omega)
    rw [toLower_def c, if_pos h, toLower_def, h2, if_neg (by omega)]
  · rw [toLower_def c, if_neg h, toLower_def, if_neg h]

theorem slugChar_idem (c : Char) :
    (if Char.toLower (if Char.toLower c = ' ' then '-' else Char.toLower c) = ' ' then '-'
      else Char.toLower (if Char.toLower c = ' ' then '-' else Char.toLower c)) =
    (if Char.toLower c = ' ' then '-' else Char.toLower c) := by
  by_cases hd : Char.toLower c = ' '
  · rw [if_pos hd]
    have h1 : Char.toLower '-' = '-' := by decide
    rw [h1, if_neg (by decide)]
  · rw [if_neg hd, toLower_idem, if_neg hd]

theorem validateData_ok_of (d : List (String × Option PyNum))
    (h : ∀ p ∈ d, p.2 ≠ none) : validateData d = .ok (coerceData d) := by
  induction d with
  | nil => rfl
  | cons p rest ih =>
    obtain ⟨k, v⟩ := p
    cases v with
    | none => exact absurd rfl (h (k, none) (List.mem_cons_self _ _))
    | some x =>
      have := ih (fun q hq => h q (List.mem_cons_of_mem _ hq))
      simp [validateData, this, coerceData, coerceVal]

theorem validateData_eq_of_ok (d : List (String × Option PyNum))
    (v : List (String × PyNum)) (h : validateData d = .ok v) : v = coerceData d := by
  induction d generalizing v with
  | nil => simp [validateData] at h; simp [coerceData, ← h]
  | cons p rest ih =>
    obtain ⟨k, w⟩ := p
    cases w with
    | none => simp [validateData] at h
    | some x =>
      cases hr : validateData rest with
      | error e => rw [validateData, hr] at h; simp at h
      | ok r =>
        rw [validateData, hr] at h
        simp at h
        simp [coerceData, coerceVal, ← h, ih r hr]

theorem dictGet_coerceData (d : List (String × Option PyNum)) (k : String) :
    dictGet (coerceData d) k = (dictGet d k).map coerceVal := by
  induction d with
  | nil => rfl
  | cons p rest ih =>
    obtain ⟨a, b⟩ := p
    rw [coerceData, List.map_cons]
    by_cases hk : a = k
    · rw [dictGet, dictGet, if_pos hk, if_pos hk, Option.map_some']
    · rw [dictGet, dictGet, if_neg hk, if_neg hk]
      exact ih

theorem dictGet_setItem_self {α : Type} (d : List (String × α)) (k : String) (v w : α)
    (h : dictGet d k = some w) : dictGet (setItem d k v) k = some v := by
  induction d with
  | nil => simp [dictGet] at h
  | cons p rest ih =>
    obtain ⟨a, b⟩ := p
    by_cases hk : a = k
    · rw [setItem, if_pos hk, dictGet, if_pos hk]
    · rw [dictGet, if_neg hk] at h
      rw [setItem, if_neg hk, dictGet, if_neg hk]
      exact ih h

theorem setItem_mem {α : Type} (d : List (String × α)) (k : String) (v : α)
    (p : String × α) (hp : p ∈ setItem d k v) :
    (p.1 = k ∧ p.2 = v) ∨ (p.1 ≠ k ∧ p ∈ d) := by
  induction d with
  | nil => simp [setItem] at hp
  | cons q rest ih =>
    obtain ⟨a, b⟩ := q
    by_cases hk : a = k
    · rw [setItem, if_pos hk] at hp
      rcases List.mem_cons.mp hp with h1 | h1
      · left; rw [h1, ← hk]; exact ⟨rfl, rfl⟩
      · rcases ih h1 with h2 | ⟨h2, h3⟩
        · exact Or.inl h2
        · exact Or.inr ⟨h2, List.mem_cons_of_mem _ h3⟩
    · rw [setItem, if_neg hk] at hp
      rcases List.mem_cons.mp hp with h1 | h1
      · refine Or.inr ⟨?_, h1 ▸ List.mem_cons_self _ _⟩
        rw [h1]
        exact hk
      · rcases ih h1 with h2 | ⟨h2, h3⟩
        · exact Or.inl h2
        · exact Or.inr ⟨h2, List.mem_cons_of_mem _ h3⟩

theorem coerceData_keys (d : List (String × Option PyNum)) :
    (coerceData d).map Prod.fst = d.map Prod.fst := by
  unfold coerceData
  rw [List.map_map]
  apply List.map_congr_left
  intro p _
  rfl

theorem setItem_keys {α : Type} (d : List (String × α)) (k : String) (v : α) :
    (setItem d k v).map Prod.fst = d.map Prod.fst := by
  induction d with
  | nil => rfl
  | cons p rest ih =>
    obtain ⟨a, b⟩ := p
    by_cases hk : a = k
    · rw [setItem, if_pos hk, List.map_cons, List.map_cons, ih]
    · rw [setItem, if_neg hk, List.map_cons, List.map_cons, ih]

theorem create_prompt_ok_of_entries (d : List (String × PyNum)) (u : UserInput)
    (es : List (String × DispVal)) (h : format_aqi_entries d = .ok es) :
    ∃ p, create_prompt d u = .ok p := by
  simp only [format_aqi_entries, bind, Except.bind] at h
  simp only [create_prompt, bind, Except.bind]
  cases h1 : dictGetE d "aqi" with
  | error e => rw [h1] at h; simp at h
  | ok a =>
    rw [h1] at h
    cases h2 : dictGetE d "pm25" with
    | error e => rw [h2] at h; simp at h
    | ok b =>
      rw [h2] at h
      cases h3 : dictGetE d "pm10" with
      | error e => rw [h3] at h; simp at h
      | ok c =>
        rw [h3] at h
        cases h4 : dictGetE d "co" with
        | error e => rw [h4] at h; simp at h
        | ok e4 =>
          rw [h4] at h
          cases h5 : dictGetE d "temperature" with
          | error e => rw [h5] at h; simp at h
          | ok t =>
            rw [h5] at h
            cases h6 : dictGetE d "humidity" with
            | error e => rw [h6] at h; simp at h
            | ok hu =>
              rw [h6] at h
              cases h7 : dictGetE d "wind_speed" with
              | error e => rw [h7] at h; simp at h
              | ok w => exact ⟨_, rfl⟩

/-! ## Claims -/

/-- Claim C1, refuted at a concrete input: an extraction response that reports
success with a `data` dictionary holding only the key `wind_speed` passes
validation (`Dict[str, float]` constrains no keys), and `fetch_aqi_data`
returns that one-key mapping — the key `aqi` is absent from the returned
metrics mapping, so the mapping does not always contain the seven keys. -/
theorem c1_seven_key_invariant_refuted :
    dictGet (fetch_aqi_data
      (fun _ => .ok ⟨true, [("wind_speed", some (.float 5))], "completed", "2025-01-01"⟩)
      "Delhi" "" "India").1 "aqi" = none := by
  rfl

/-- Claim C1 as amended: after any `fetch_aqi_data` call, either the call
took a failure path and returned exactly the zero-filled seven-key sentinel
paired with an error message, or the extraction response reported success and
the call returned exactly the service-reported data (coerced to floats, with
a `null` `wind_speed` replaced by `0.0`) paired with the informational
message — a mapping whose key list is exactly the service-reported key list,
which necessarily contains `wind_speed` but need not contain the other six
keys. -/
theorem c1_metrics_keys_amended (extract : List String → Except String RawResponse)
    (city state country : String) :
    (∃ m, fetch_aqi_data extract city state country =
      (zeroMetrics, "Error fetching AQI data: " ++ m)) ∨
    (∃ raw d, extract [lookup_url country state city] = .ok raw ∧ raw.success = true ∧
      (d = raw.data ∨ d = setItem raw.data "wind_speed" (some (.float 0))) ∧
      fetch_aqi_data extract city state country =
        (coerceData d, "Accessing URL: " ++ format_url country state city) ∧
      (coerceData d).map Prod.fst = raw.data.map Prod.fst ∧
      (dictGet (coerceData d) "wind_speed").isSome) := by
  simp only [fetch_aqi_data, bind, Except.bind]
  cases hex : extract [format_url country state city ++ "/*"] with
  | error e => exact Or.inl ⟨e, rfl⟩
  | ok raw =>
    cases hw : dictGet raw.data "wind_speed" with
    | none =>
      left
      exact ⟨"'wind_speed'", by simp [hw]⟩
    | some o =>
      cases o with
      | none =>
        cases hv : validateData (setItem raw.data "wind_speed" (some (.float 0))) with
        | error e2 => exact Or.inl ⟨e2, by simp [hw, hv]⟩
        | ok v =>
          cases hs : raw.success with
          | false =>
            exact Or.inl ⟨"Failed to fetch AQI data: " ++ raw.status, by simp [hw, hv, hs]⟩
          | true =>
            right
            have hveq := validateData_eq_of_ok _ _ hv
            refine ⟨raw, setItem raw.data "wind_speed" (some (.float 0)), hex, hs,
              Or.inr rfl, ?_, ?_, ?_⟩
            · simp [hw, hv, hs, pure, Except.pure, hveq]
            · rw [coerceData_keys, setItem_keys]
            · rw [dictGet_coerceData, dictGet_setItem_self raw.data _ _ _ hw]
              rfl
      | some x =>
        cases hv : validateData raw.data with
        | error e2 => exact Or.inl ⟨e2, by simp [hw, hv]⟩
        | ok v =>
          cases hs : raw.success with
          | false =>
            exact Or.inl ⟨"Failed to fetch AQI data: " ++ raw.status, by simp [hw, hv, hs]⟩
          | true =>
            right
            have hveq := validateData_eq_of_ok _ _ hv
            refine ⟨raw, raw.data, hex, hs, Or.inl rfl, ?_, ?_, ?_⟩
            · simp [hw, hv, hs, pure, Except.pure, hveq]
            · rw [coerceData_keys]
            · rw [dictGet_coerceData, hw]
              rfl

/-- Claim C2: whenever the extraction response reports `success = false`,
`fetch_aqi_data` returns the zero-filled sentinel mapping paired with an
error-message string (prefixed `Error fetching AQI data: `), never the
reported data. -/
theorem c2_success_false_returns_zero_sentinel
    (extract : List String → Except String RawResponse) (raw : RawResponse)
    (city state country : String)
    (hex : extract [lookup_url country state city] = .ok raw)
    (hs : raw.success = false) :
    (fetch_aqi_data extract city state country).1 = zeroMetrics ∧
    ∃ m, (fetch_aqi_data extract city state country).2 = "Error fetching AQI data: " ++ m := by
  rw [lookup_url] at hex
  simp only [fetch_aqi_data, bind, Except.bind, hex]
  cases hw : dictGet raw.data "wind_speed" with
  | none => exact ⟨rfl, "'wind_speed'", rfl⟩
  | some o =>
    cases o with
    | none =>
      cases hv : validateData (setItem raw.data "wind_speed" (some (.float 0))) with
      | error e2 => exact ⟨rfl, e2, rfl⟩
      | ok v =>
        simp only [hv, hs]
        exact ⟨rfl, "Failed to fetch AQI data: " ++ raw.status, rfl⟩
    | some x =>
      cases hv : validateData raw.data with
      | error e2 => exact ⟨rfl, e2, rfl⟩
      | ok v =>
        simp only [hv, hs]
        exact ⟨rfl, "Failed to fetch AQI data: " ++ raw.status, rfl⟩

/-- Witness for C2: a full seven-key response with `success = false` yields
the zero sentinel and an error message. -/
theorem c2_success_false_returns_zero_sentinel_witness :
    (fetch_aqi_data
      (fun _ => .ok ⟨false,
        [("aqi", some (.float 50)), ("temperature", some (.float 25)),
         ("humidity", some (.float 40)), ("wind_speed", some (.float 10)),
         ("pm25", some (.float 12)), ("pm10", some (.float 30)),
         ("co", some (.float 5))], "failed", "2025-01-01"⟩)
      "Mumbai" "Maharashtra" "India").1 = zeroMetrics ∧
    ∃ m, (fetch_aqi_data
      (fun _ => .ok ⟨false,
        [("aqi", some (.float 50)), ("temperature", some (.float 25)),
         ("humidity", some (.float 40)), ("wind_speed", some (.float 10)),
         ("pm25", some (.float 12)), ("pm10", some (.float 30)),
         ("co", some (.float 5))], "failed", "2025-01-01"⟩)
      "Mumbai" "Maharashtra" "India").2 = "Error fetching AQI data: " ++ m :=
  c2_success_false_returns_zero_sentinel _ _ "Mumbai" "Maharashtra" "India" rfl rfl

/-- Claim C3, refuted at a concrete input: a response that reports success but
whose `data` dictionary has no `wind_speed` key does not get `0.0`
substituted — the subscript `response['data']['wind_speed']` raises
`KeyError('wind_speed')`, the broad handler catches it, and the call returns
the zero-filled fallback with the `KeyError` message, not the reported data
with the `Accessing URL` message. -/
theorem c3_absent_wind_speed_refuted :
    fetch_aqi_data
      (fun _ => .ok ⟨true,
        [("aqi", some (.float 50)), ("temperature", some (.float 25)),
         ("humidity", some (.float 40)), ("pm25", some (.float 12)),
         ("pm10", some (.float 30)), ("co", some (.float 5))],
        "completed", "2025-01-01"⟩)
      "Delhi" "" "India" =
    (zeroMetrics, "Error fetching AQI data: 'wind_speed'") := by
  rfl

/-- Claim C3 as amended: if a raw response reports success and its
`wind_speed` key is present with a `null` value (and the remaining values are
non-`null`, so validation passes), `fetch_aqi_data` substitutes `0.0` for
`wind_speed` and returns via the success path: the reported data (coerced to
floats, `wind_speed` now `0.0`) with the informational `Accessing URL`
message.  An absent `wind_speed` key instead raises `KeyError` and takes the
fallback path. -/
theorem c3_null_wind_speed_amended (extract : List String → Except String RawResponse)
    (raw : RawResponse) (city state country : String)
    (hex : extract [lookup_url country state city] = .ok raw)
    (hs : raw.success = true)
    (hw : dictGet raw.data "wind_speed" = some none)
    (hv : ∀ p ∈ raw.data, p.1 = "wind_speed" ∨ p.2 ≠ none) :
    fetch_aqi_data extract city state country =
      (coerceData (setItem raw.data "wind_speed" (some (.float 0))),
        "Accessing URL: " ++ format_url country state city) ∧
    dictGet (coerceData (setItem raw.data "wind_speed" (some (.float 0)))) "wind_speed" =
      some (.float 0) := by
  have hall : ∀ p ∈ setItem raw.data "wind_speed" (some (PyNum.float 0)), p.2 ≠ none := by
    intro p hp
    rcases setItem_mem _ _ _ p hp with ⟨_, hv2⟩ | ⟨hne, hmem⟩
    · rw [hv2]; simp
    · rcases hv p hmem with hk | hnn
      · exact absurd hk hne
      · exact hnn
  have hvd := validateData_ok_of _ hall
  refine ⟨?_, ?_⟩
  · rw [lookup_url] at hex
    simp [fetch_aqi_data, bind, Except.bind, hex, hw, hvd, hs, pure, Except.pure]
  · rw [dictGet_coerceData, dictGet_setItem_self raw.data _ _ _ hw]
    rfl

/-- Witness for the amended C3: a successful response with `wind_speed: null`
and six numeric metrics succeeds with `wind_speed` read as `0.0`. -/
theorem c3_null_wind_speed_amended_witness :
    fetch_aqi_data
      (fun _ => .ok ⟨true,
        [("aqi", some (.float 50)), ("temperature", some (.float 25)),
         ("humidity", some (.float 40)), ("wind_speed", none),
         ("pm25", some (.float 12)), ("pm10", some (.float 30)),
         ("co", some (.float 5))], "completed", "2025-01-01"⟩)
      "Delhi" "" "India" =
      (coerceData (setItem
        [("aqi", some (.float 50)), ("temperature", some (.float 25)),
         ("humidity", some (.float 40)), ("wind_speed", none),
         ("pm25", some (.float 12)), ("pm10", some (.float 30)),
         ("co", some (.float 5))] "wind_speed" (some (.float 0))),
        "Accessing URL: " ++ format_url "India" "" "Delhi") ∧
    dictGet (coerceData (setItem
        [("aqi", some (.float 50)), ("temperature", some (.float 25)),
         ("humidity", some (.float 40)), ("wind_speed", none),
         ("pm25", some (.float 12)), ("pm10", some (.float 30)),
         ("co", some (.float 5))] "wind_speed" (some (.float 0)))) "wind_speed" =
      some (.float 0) :=
  c3_null_wind_speed_amended
    (fun _ => .ok ⟨true,
      [("aqi", some (.float 50)), ("temperature", some (.float 25)),
       ("humidity", some (.float 40)), ("wind_speed", none),
       ("pm25", some (.float 12)), ("pm10", some (.float 30)),
       ("co", some (.float 5))], "completed", "2025-01-01"⟩)
    ⟨true,
      [("aqi", some (.float 50)), ("temperature", some (.float 25)),
       ("humidity", some (.float 40)), ("wind_speed", none),
       ("pm25", some (.float 12)), ("pm10", some (.float 30)),
       ("co", some (.float 5))], "completed", "2025-01-01"⟩
    "Delhi" "" "India" rfl rfl rfl (by decide)

/-- Claim C4: with an empty or case-insensitively-"none" state the formatted
URL is the fixed prefix followed by exactly the two normalized segments
country then city; with any other state, exactly the three normalized
segments country, state, city.  Each segment is the input lowercased with
spaces replaced by hyphens (`slugSegment`). -/
theorem c4_format_url_segment_structure (country state city : String) :
    ((state = "" ∨ pyLower state = "none") →
      format_url country state city =
        "https://www.aqi.in/dashboard/" ++ slugSegment country ++ "/" ++ slugSegment city) ∧
    (state ≠ "" → pyLower state ≠ "none" →
      format_url country state city =
        "https://www.aqi.in/dashboard/" ++ slugSegment country ++ "/" ++ slugSegment state
          ++ "/" ++ slugSegment city) := by
  constructor
  · intro h
    rw [format_url, if_pos h]
  · intro h1 h2
    rw [format_url, if_neg (by simp [h1, h2])]

/-- Witness for C4: both branches at concrete inputs. -/
theorem c4_format_url_segment_structure_witness :
    format_url "India" "" "Delhi" =
      "https://www.aqi.in/dashboard/" ++ slugSegment "India" ++ "/" ++ slugSegment "Delhi" ∧
    format_url "India" "Maharashtra" "Mumbai" =
      "https://www.aqi.in/dashboard/" ++ slugSegment "India" ++ "/"
        ++ slugSegment "Maharashtra" ++ "/" ++ slugSegment "Mumbai" :=
  ⟨(c4_format_url_segment_structure "India" "" "Delhi").1 (Or.inl rfl),
   (c4_format_url_segment_structure "India" "Maharashtra" "Mumbai").2
     (by decide) (by decide)⟩

/-- Claim C5: the two scenario inputs produce exactly the expected wildcard
lookup URLs. -/
theorem c5_lookup_url_scenarios :
    lookup_url "India" "Maharashtra" "Mumbai" =
      "https://www.aqi.in/dashboard/india/maharashtra/mumbai/*" ∧
    lookup_url "India" "" "Delhi" = "https://www.aqi.in/dashboard/india/delhi/*" :=
  ⟨rfl, rfl⟩

/-- Claim C6: when the extraction call raises with message `e`,
`fetch_aqi_data` does not propagate the exception: it returns the all-zero
mapping paired with `"Error fetching AQI data: " ++ e`. -/
theorem c6_extraction_error_fallback (extract : List String → Except String RawResponse)
    (e city state country : String)
    (hex : extract [lookup_url country state city] = .error e) :
    fetch_aqi_data extract city state country =
      (zeroMetrics, "Error fetching AQI data: " ++ e) := by
  rw [lookup_url] at hex
  simp only [fetch_aqi_data, bind, Except.bind, hex]

/-- Witness for C6: a network error message is wrapped and the zero mapping
returned. -/
theorem c6_extraction_error_fallback_witness :
    fetch_aqi_data (fun _ => .error "Connection refused") "Delhi" "" "India" =
      (zeroMetrics, "Error fetching AQI data: " ++ "Connection refused") :=
  c6_extraction_error_fallback _ "Connection refused" "Delhi" "" "India" rfl

/-- Claim C7: any exception inside the orchestration sequence collapses
`analyze_conditions` to the fixed tuple `("", "Analysis failed",
"Error occurred: " ++ e, "")` — first conjunct: an error anywhere in the
`try` body reaches the outer handler and produces exactly that tuple; second
conjunct: in particular an exception thrown by the recommendation generator
(which has no local catch) produces it, whenever the earlier display step
succeeded. -/
theorem c7_analyze_conditions_failure_tuple
    (extract : List String → Except String RawResponse)
    (groq : String → Except String String)
    (city state country mc pa e : String) (es : List (String × DispVal)) :
    (analyze_inner extract groq city state country mc pa = .error e →
      analyze_conditions extract groq city state country mc pa =
        ("", "Analysis failed", "Error occurred: " ++ e, "")) ∧
    (format_aqi_entries (fetch_aqi_data extract city state country).1 = .ok es →
      (∀ p, groq p = .error e) →
      analyze_conditions extract groq city state country mc pa =
        ("", "Analysis failed", "Error occurred: " ++ e, "")) := by
  constructor
  · intro h
    simp [analyze_conditions, h]
  · intro hentries hgroq
    obtain ⟨pr, hpr⟩ := create_prompt_ok_of_entries _
      ⟨city, state, country, some mc, pa⟩ _ hentries
    rcases hf : fetch_aqi_data extract city state country with ⟨ad, im⟩
    rw [hf] at hentries hpr
    simp only [analyze_conditions, analyze_inner, bind, Except.bind, hf]
    simp only [hentries, get_recommendations, bind, Except.bind, hpr, hgroq]

/-- Witness for C7: with the extraction call failing (so the display step
runs on the zero sentinel and succeeds) and the generator raising `boom`,
the orchestration returns the fixed failure tuple. -/
theorem c7_analyze_conditions_failure_tuple_witness :
    analyze_conditions (fun _ => .error "network unreachable") (fun _ => .error "boom")
      "Delhi" "" "India" "" "morning jog" =
      ("", "Analysis failed", "Error occurred: " ++ "boom", "") :=
  (c7_analyze_conditions_failure_tuple
    (fun _ => .error "network unreachable") (fun _ => .error "boom")
    "Delhi" "" "India" "" "morning jog" "boom"
    [("Air Quality Index (AQI)", .num (.int 0)),
     ("PM2.5", .str "0 µg/m³"), ("PM10", .str "0 µg/m³"),
     ("Carbon Monoxide (CO)", .str "0 ppb"), ("Temperature", .str "0°C"),
     ("Humidity", .str "0%"), ("Wind Speed", .str "0 km/h")]).2
    rfl (fun _ => rfl)

/-- Claim C8: for every seven-key metrics mapping, the display dictionary of
`analyze_conditions` renders each numeric field adjacent to its correct
literal unit — `pm25` and `pm10` with `µg/m³`, `co` with `ppb`, `temperature`
with `°C`, `humidity` with `%`, `wind_speed` with `km/h` — and in particular
the float `42.0` renders as `42.0` and `80.0` as `80.0` (so `pm25 = 42.0`
yields the entry `42.0 µg/m³`). -/
theorem c8_display_units_adjacent (a t hum w p25 p10 c : PyNum) :
    format_aqi_entries (mkMetricsDict a t hum w p25 p10 c) =
      .ok [("Air Quality Index (AQI)", .num a),
        ("PM2.5", .str (pyStr p25 ++ " µg/m³")),
        ("PM10", .str (pyStr p10 ++ " µg/m³")),
        ("Carbon Monoxide (CO)", .str (pyStr c ++ " ppb")),
        ("Temperature", .str (pyStr t ++ "°C")),
        ("Humidity", .str (pyStr hum ++ "%")),
        ("Wind Speed", .str (pyStr w ++ " km/h"))] ∧
    pyStr (.float 42) = "42.0" ∧ pyStr (.float 80) = "80.0" :=
  ⟨rfl, rfl, rfl⟩

/-- Claim C9: the lowercase+hyphen normalization of URL segments is
idempotent — an already-normalized string (every character fixed by
lowercasing and no spaces) is returned unchanged, and equivalently applying
the normalization twice equals applying it once. -/
theorem c9_slug_normalization_idempotent (s : String) :
    ((∀ c ∈ s.data, c.toLower = c ∧ c ≠ ' ') → slugSegment s = s) ∧
    slugSegment (slugSegment s) = slugSegment s := by
  constructor
  · intro h
    unfold slugSegment replaceSpaceWithHyphen pyLower
    simp only [List.map_map]
    have hid : s.data.map ((fun c => if c = ' ' then '-' else c) ∘ Char.toLower) = s.data := by
      rw [show s.data = s.data.map id from (List.map_id s.data).symm]
      simp only [List.map_map]
      apply List.map_congr_left
      intro c hc
      rcases h c (by simpa using hc) with ⟨h1, h2⟩
      simp [Function.comp, h1, h2]
    rw [hid]
  · unfold slugSegment replaceSpaceWithHyphen pyLower
    simp only [List.map_map]
    apply congrArg String.mk
    apply List.map_congr_left
    intro c _
    simp only [Function.comp_apply]
    exact slugChar_idem c

/-- Witness for C9: the already-normalized string `new-delhi` is unchanged,
and re-normalizing a normalized mixed-case input is a no-op. -/
theorem c9_slug_normalization_idempotent_witness :
    slugSegment "new-delhi" = "new-delhi" ∧
    slugSegment (slugSegment "New Delhi") = slugSegment "New Delhi" :=
  ⟨(c9_slug_normalization_idempotent "new-delhi").1 (by decide),
   (c9_slug_normalization_idempotent "New Delhi").2⟩

/-- Claim C10: in the prompt built by `_create_prompt`, a `None` or empty
`medical_conditions` renders the line as `Medical Conditions: None`, while a
non-empty `medical_conditions` string appears verbatim. -/
theorem c10_medical_conditions_prompt (a t hum w p25 p10 c : PyNum) (u : UserInput) :
    ((u.medical_conditions = none ∨ u.medical_conditions = some "") →
      ∃ p q, create_prompt (mkMetricsDict a t hum w p25 p10 c) u =
        .ok (p ++ "Medical Conditions: None" ++ q)) ∧
    (∀ s, u.medical_conditions = some s → s ≠ "" →
      ∃ p q, create_prompt (mkMetricsDict a t hum w p25 p10 c) u =
        .ok (p ++ s ++ q)) := by
  constructor
  · intro hmc
    have hpy : pyOrNone u.medical_conditions = "None" := by
      rcases hmc with h | h <;> simp [h, pyOrNone]
    have e1 : (" km/h\n        \n        User's Context:\n        - Medical Conditions: " : String) =
        " km/h\n        \n        User's Context:\n        - " ++ "Medical Conditions: " := rfl
    have e2 : ("Medical Conditions: None" : String) = "Medical Conditions: " ++ "None" := rfl
    refine ⟨"\n        Based on the following air quality conditions in " ++ u.city ++ ", "
      ++ u.state ++ ", " ++ u.country ++ ":\n        - Overall AQI: " ++ pyStr a
      ++ "\n        - PM2.5 Level: " ++ pyStr p25 ++ " µg/m³\n        - PM10 Level: "
      ++ pyStr p10 ++ " µg/m³\n        - CO Level: " ++ pyStr c
      ++ " ppb\n        \n        Weather conditions:\n        - Temperature: " ++ pyStr t
      ++ "°C\n        - Humidity: " ++ pyStr hum
      ++ "%\n        - Wind Speed: " ++ pyStr w
      ++ " km/h\n        \n        User's Context:\n        - ",
      "\n        - Planned Activity: " ++ u.planned_activity
      ++ "\n        **Comprehensive Health Recommendations:**\n        1. **Impact of Current Air Quality on Health:**\n        2. **Necessary Safety Precautions for Planned Activity:**\n        3. **Advisability of Planned Activity:**\n        4. **Best Time to Conduct the Activity:**\n        ", ?_⟩
    refine congrArg Except.ok ?_
    rw [hpy, e1, e2]
    simp only [String.append_assoc]
  · intro s hmc hs
    have hpy : pyOrNone u.medical_conditions = s := by
      simp [hmc, pyOrNone, hs]
    refine ⟨"\n        Based on the following air quality conditions in " ++ u.city ++ ", "
      ++ u.state ++ ", " ++ u.country ++ ":\n        - Overall AQI: " ++ pyStr a
      ++ "\n        - PM2.5 Level: " ++ pyStr p25 ++ " µg/m³\n        - PM10 Level: "
      ++ pyStr p10 ++ " µg/m³\n        - CO Level: " ++ pyStr c
      ++ " ppb\n        \n        Weather conditions:\n        - Temperature: " ++ pyStr t
      ++ "°C\n        - Humidity: " ++ pyStr hum
      ++ "%\n        - Wind Speed: " ++ pyStr w
      ++ " km/h\n        \n        User's Context:\n        - Medical Conditions: ",
      "\n        - Planned Activity: " ++ u.planned_activity
      ++ "\n        **Comprehensive Health Recommendations:**\n        1. **Impact of Current Air Quality on Health:**\n        2. **Necessary Safety Precautions for Planned Activity:**\n        3. **Advisability of Planned Activity:**\n        4. **Best Time to Conduct the Activity:**\n        ", ?_⟩
    refine congrArg Except.ok ?_
    rw [hpy]
    simp only [String.append_assoc]

/-- Witness for C10: a `None` medical-conditions field renders the literal
`Medical Conditions: None` line, and the non-empty value `asthma` appears
verbatim. -/
theorem c10_medical_conditions_prompt_witness :
    (∃ p q, create_prompt
      (mkMetricsDict (.float 50) (.float 25) (.float 40) (.float 10)
        (.float 12) (.float 30) (.float 5))
      ⟨"Delhi", "", "India", none, "morning jog"⟩ =
      .ok (p ++ "Medical Conditions: None" ++ q)) ∧
    (∃ p q, create_prompt
      (mkMetricsDict (.float 50) (.float 25) (.float 40) (.float 10)
        (.float 12) (.float 30) (.float 5))
      ⟨"Mumbai", "Maharashtra", "India", some "asthma", "morning walk"⟩ =
      .ok (p ++ "asthma" ++ q)) :=
  ⟨(c10_medical_conditions_prompt (.float 50) (.float 25) (.float 40) (.float 10)
      (.float 12) (.float 30) (.float 5)
      ⟨"Delhi", "", "India", none, "morning jog"⟩).1 (Or.inl rfl),
   (c10_medical_conditions_prompt (.float 50) (.float 25) (.float 40) (.float 10)
      (.float 12) (.float 30) (.float 5)
      ⟨"Mumbai", "Maharashtra", "India", some "asthma", "morning walk"⟩).2
      "asthma" rfl (by decide)⟩
